import Mathlib

/-
Verification of `scripts/copy-issues.go` (kongctl issue copier).

The Go program is a sequential batch job: it paginates the source
repository open-issue listing, filters out pull requests by URL shape,
transforms each issue into a creation request, posts the requests one by
one with a fixed delay between successful creations, and reports a
success/failure/total summary.

The embedding below models:
  - the data model (`Issue`, `Label`, `User`, `CreateIssueRequest`);
  - `fetchOpenIssues` as a recursion over the list of pages the tracker
    returns (a page past the end of the list is the empty page, which is
    what the tracker answers for out-of-range page numbers);
  - the pure transformation inside `createIssue` (body synthesis, label
    extraction) and the JSON field emission of `CreateIssueRequest`,
    where the `omitempty` tag on `Labels` omits an empty slice;
  - the copy loop of `run` as a trace of events (creation request per
    index, sleep), with the per-index creation outcome supplied by an
    oracle `ok : Nat -> Bool` (true means the POST returned 201);
  - the exit-code logic of `main`.
-/

namespace CopyIssues

/-- Substring test on character lists: `listHasInfix sub s` is true when
`sub` occurs contiguously inside `s`.  Mirrors Go `strings.Contains`. -/
def listHasInfix (sub : List Char) : List Char → Bool
  | [] => sub.isEmpty
  | c :: rest => sub.isPrefixOf (c :: rest) || listHasInfix sub rest

/-- Go `strings.Contains (s, sub)`. -/
def strContains (s sub : String) : Bool :=
  listHasInfix sub.toList s.toList

/-- `Label` record from the listing payload (only `name` is reused). -/
structure Label where
  name : String
  color : String
deriving DecidableEq, Repr

/-- `User` record from the listing payload. -/
structure User where
  login : String
deriving DecidableEq, Repr

/-- `Issue` as decoded from the tracker listing endpoint. -/
structure Issue where
  number : Int
  title : String
  body : String
  state : String
  labels : List Label
  user : User
  html_url : String
deriving DecidableEq, Repr

/-- `CreateIssueRequest`: the JSON body of the creation POST. -/
structure CreateIssueRequest where
  title : String
  body : String
  labels : List String
deriving DecidableEq, Repr

/-- The fixed page size used by `fetchOpenIssues` (`perPage := 100`). -/
def perPage : Nat := 100

/-- The pull-request filter of `fetchOpenIssues`: a record is discarded
when its canonical URL contains `/pull/`. -/
def isPullRequestURL (u : String) : Bool :=
  strContains u "/pull/"

/-- `fetchOpenIssues`, with the tracker modelled as the list of pages it
returns in order; requesting a page past the end of the list yields the
empty page.  The result is the accumulated filtered issues together with
the number of page requests issued.  Faithful to the Go loop: each
iteration issues one GET, filters the decoded records, appends the
survivors, and breaks exactly when the raw (pre-filter) record count of
the page is below `perPage`. -/
def fetchOpenIssues : List (List Issue) → List Issue × Nat
  | [] => ([], 1)
  | p :: rest =>
      let filtered := p.filter (fun iss => !(isPullRequestURL iss.html_url))
      if p.length < perPage then
        (filtered, 1)
      else
        let r := fetchOpenIssues rest
        (filtered ++ r.1, r.2 + 1)

/-- The pages the fetch loop actually requests: every leading full page,
then the first short page (or the empty page just past the supplied
list, when every supplied page is full). -/
def requestedPages : List (List Issue) → List (List Issue)
  | [] => [[]]
  | p :: rest =>
      if p.length < perPage then [p] else p :: requestedPages rest

/-- The provenance line placed at the top of every copied body. -/
def provenanceLine (u : String) : String :=
  "_Copied from original issue: " ++ u ++ "_"

/-- The horizontal separator between the provenance line and the
original body. -/
def bodySeparator : String :=
  "\n\n---\n\n"

/-- The body synthesis of `createIssue`:
`fmt.Sprintf` of the provenance format string over the source URL and
the source body. -/
def buildBody (iss : Issue) : String :=
  "_Copied from original issue: " ++ iss.html_url ++ "_\n\n---\n\n" ++ iss.body

/-- The pure transformation inside `createIssue`: title passthrough,
synthesized body, label names extracted in source order. -/
def transformIssue (iss : Issue) : CreateIssueRequest :=
  { title := iss.title
    body := buildBody iss
    labels := iss.labels.map Label.name }

/-- A JSON value, only the shapes `CreateIssueRequest` serialization
needs. -/
inductive JsonValue where
  | str (s : String)
  | arr (xs : List JsonValue)
deriving Repr

/-- Field emission of `json.Marshal` on `CreateIssueRequest`: fields in
struct declaration order; `Title` and `Body` carry no `omitempty` so
they are always emitted; `Labels` carries `omitempty`, so an empty slice
is omitted entirely. -/
def marshalCreateIssueRequest (r : CreateIssueRequest) : List (String × JsonValue) :=
  [("title", JsonValue.str r.title), ("body", JsonValue.str r.body)]
    ++ (if r.labels.isEmpty then []
        else [("labels", JsonValue.arr (r.labels.map JsonValue.str))])

/-- Observable events of the copy loop: one creation POST per attempted
index, and the fixed rate-limit sleep. -/
inductive Event where
  | createReq (idx : Nat)
  | sleep
deriving DecidableEq, Repr

/-- The copy loop of `run`, from index `i` over the remaining issues,
with `n` the total issue count and `ok j` telling whether the creation
POST for index `j` returns status 201.  Produces the event trace and the
`(successCount, errorCount)` pair.  Faithful to the Go loop: every
iteration issues exactly one POST; on failure the loop logs and
continues (no sleep); on success it increments the success counter and,
when the index is not the last (`i < n - 1`), sleeps once. -/
def copyFrom (n : Nat) (ok : Nat → Bool) : Nat → List Issue → List Event × Nat × Nat
  | _, [] => ([], 0, 0)
  | i, _ :: rest =>
      let r := copyFrom n ok (i + 1) rest
      if ok i then
        (Event.createReq i ::
            (if i < n - 1 then Event.sleep :: r.1 else r.1),
          r.2.1 + 1, r.2.2)
      else
        (Event.createReq i :: r.1, r.2.1, r.2.2 + 1)

/-- The post-fetch part of `run`: in dry-run mode it prints the preview
and returns before contacting the target (empty trace, no counters);
otherwise it runs the copy loop over the fetched issues. -/
def runEvents (issues : List Issue) (ok : Nat → Bool) (dryRun : Bool) :
    List Event × Nat × Nat :=
  if dryRun then ([], 0, 0) else copyFrom issues.length ok 0 issues

/-- The indices of the creation POSTs in a trace, in order. -/
def attemptedIndices (evs : List Event) : List Nat :=
  evs.filterMap (fun e => match e with
    | Event.createReq i => some i
    | Event.sleep => none)

/-- The number of creation POSTs in a trace. -/
def countCreates (evs : List Event) : Nat :=
  (attemptedIndices evs).length

/-- The number of sleeps in a trace. -/
def countSleeps (evs : List Event) : Nat :=
  evs.countP (fun e => e = Event.sleep)

/-- `run`, abstracting the network: `fetchResult` is what the fetch
phase produced (fetch errors are returned unchanged, wrapped in the
fetch-failure message, and abort the run); on success the copy loop runs
and `run` returns without error whatever the per-item outcomes were. -/
def runModel (fetchResult : Except String (List Issue)) (ok : Nat → Bool)
    (dryRun : Bool) : Except String (List Event × Nat × Nat) :=
  match fetchResult with
  | Except.error e => Except.error ("failed to fetch issues: " ++ e)
  | Except.ok issues => Except.ok (runEvents issues ok dryRun)

/-- The exit code of `main`: 1 when the token is empty at startup, 1
when `run` returns an error, 0 otherwise. -/
def mainExitCode (token : String) (fetchResult : Except String (List Issue))
    (ok : Nat → Bool) (dryRun : Bool) : Nat :=
  if token = "" then 1
  else
    match runModel fetchResult ok dryRun with
    | Except.error _ => 1
    | Except.ok _ => 0

/-- A dummy label for concrete scenarios. -/
def dummyLabel : Label :=
  { name := "bug", color := "ff0000" }

/-- A dummy issue for concrete scenarios. -/
def dummyIssue : Issue :=
  { number := 1
    title := "t"
    body := "b"
    state := "open"
    labels := []
    user := { login := "u" }
    html_url := "https://example.com/o/r/issues/1" }

/-! ### Helper lemmas about the copy-loop trace -/

theorem attemptedIndices_cons_create (i : Nat) (evs : List Event) :
    attemptedIndices (Event.createReq i :: evs) = i :: attemptedIndices evs := rfl

theorem attemptedIndices_cons_sleep (evs : List Event) :
    attemptedIndices (Event.sleep :: evs) = attemptedIndices evs := rfl

theorem countSleeps_cons_create (i : Nat) (evs : List Event) :
    countSleeps (Event.createReq i :: evs) = countSleeps evs := by
  simp [countSleeps, List.countP_cons]

theorem countSleeps_cons_sleep (evs : List Event) :
    countSleeps (Event.sleep :: evs) = countSleeps evs + 1 := by
  simp [countSleeps, List.countP_cons]

theorem copyFrom_counts (n : Nat) (ok : Nat → Bool) (l : List Issue) :
    ∀ i : Nat, (copyFrom n ok i l).2.1 + (copyFrom n ok i l).2.2 = l.length := by
  induction l with
  | nil => intro i; rfl
  | cons a rest ih =>
      intro i
      have h1 := ih (i + 1)
      by_cases h : ok i = true
      · by_cases h2 : i < n - 1 <;> simp [copyFrom, h, h2] <;> omega
      · simp [copyFrom, h]
        omega

theorem copyFrom_attempts (n : Nat) (ok : Nat → Bool) (l : List Issue) :
    ∀ i : Nat, attemptedIndices (copyFrom n ok i l).1 = List.range' i l.length := by
  induction l with
  | nil => intro i; rfl
  | cons a rest ih =>
      intro i
      have h1 := ih (i + 1)
      by_cases h : ok i = true
      · by_cases h2 : i < n - 1 <;>
          simp [copyFrom, h, h2, attemptedIndices_cons_create,
            attemptedIndices_cons_sleep, h1, List.range'_succ]
      · simp [copyFrom, h, attemptedIndices_cons_create, h1, List.range'_succ]

theorem copyFrom_trace (n : Nat) (ok : Nat → Bool) (l : List Issue) :
    ∀ i : Nat,
      (copyFrom n ok i l).1 =
        (List.range' i l.length).flatMap
          (fun j => Event.createReq j ::
            (if ok j && decide (j < n - 1) then [Event.sleep] else [])) := by
  induction l with
  | nil => intro i; rfl
  | cons a rest ih =>
      intro i
      have h1 := ih (i + 1)
      by_cases h : ok i = true
      · by_cases h2 : i < n - 1 <;> simp [copyFrom, h, h2, h1, List.range'_succ]
      · simp [copyFrom, h, h1, List.range'_succ]

theorem copyFrom_sleeps (n : Nat) (ok : Nat → Bool) (l : List Issue) :
    ∀ i : Nat,
      countSleeps (copyFrom n ok i l).1 =
        ((List.range' i l.length).filter
          (fun j => ok j && decide (j < n - 1))).length := by
  induction l with
  | nil => intro i; rfl
  | cons a rest ih =>
      intro i
      have h1 := ih (i + 1)
      by_cases h : ok i = true
      · by_cases h2 : i < n - 1 <;>
          simp [copyFrom, h, h2, countSleeps_cons_create, countSleeps_cons_sleep,
            h1, List.range'_succ, List.filter_cons]
      · simp [copyFrom, h, countSleeps_cons_create, h1, List.range'_succ,
          List.filter_cons]

/-! ### Helper lemmas about the fetch loop -/

theorem length_filter_not_eq {α : Type} (p : α → Bool) (l : List α) :
    (l.filter (fun a => !(p a))).length = l.length - (l.filter p).length := by
  induction l with
  | nil => rfl
  | cons a rest ih =>
      have hle := List.length_filter_le p rest
      by_cases h : p a = true <;> simp [List.filter_cons, h, ih]
      omega

theorem fetchOpenIssues_requests (pages : List (List Issue)) :
    (fetchOpenIssues pages).2 =
      (pages.takeWhile (fun p => decide (perPage ≤ p.length))).length + 1 := by
  induction pages with
  | nil => rfl
  | cons p rest ih =>
      by_cases h : p.length < perPage
      · have h2 : ¬ (perPage ≤ p.length) := by omega
        simp [fetchOpenIssues, h, List.takeWhile_cons, h2]
      · have h2 : perPage ≤ p.length := by omega
        simp [fetchOpenIssues, h, List.takeWhile_cons, h2, ih]

theorem fetchOpenIssues_eq_requestedPages (pages : List (List Issue)) :
    fetchOpenIssues pages =
      (((requestedPages pages).flatten).filter
          (fun iss => !(isPullRequestURL iss.html_url)),
        (requestedPages pages).length) := by
  induction pages with
  | nil => rfl
  | cons p rest ih =>
      by_cases h : p.length < perPage
      · simp [fetchOpenIssues, requestedPages, h]
      · simp [fetchOpenIssues, requestedPages, h, ih, List.filter_append]

/-! ### Claim theorems -/

/-- C3 is refuted as stated: the fetch loop continues whenever the raw
record count of a page is at least the page size, not exactly when it
equals the page size.  On a source whose first page carries 101 raw
records the fetcher issues a second page request even though 101 is not
equal to `perPage`. -/
theorem C3_counterexample :
    (fetchOpenIssues [List.replicate 101 dummyIssue]).2 = 2 ∧
      (List.replicate 101 dummyIssue).length ≠ perPage := by
  constructor
  · rw [fetchOpenIssues_requests]
    decide
  · decide

/-- C3 (amended): the fetch loop terminates and continues to the next
page exactly when the raw, pre-filter record count of the current page
is at least the page size (100); the number of page requests is the
number of leading full pages plus one terminating request.  Hence for a
source returning pages of decreasing size ending below the page size it
stops at the first short page, and for a source all of whose pages are
full (raw count an exact multiple of the page size) it issues one
extra terminating request that returns the empty page. -/
theorem C3_amended_pagination (pages : List (List Issue)) :
    ((fetchOpenIssues pages).2 =
        (pages.takeWhile (fun p => decide (perPage ≤ p.length))).length + 1) ∧
      ((∀ p ∈ pages, perPage ≤ p.length) →
        (fetchOpenIssues pages).2 = pages.length + 1) := by
  refine ⟨fetchOpenIssues_requests pages, fun hall => ?_⟩
  rw [fetchOpenIssues_requests pages]
  have : pages.takeWhile (fun p => decide (perPage ≤ p.length)) = pages :=
    List.takeWhile_eq_self_iff.mpr (by simpa using hall)
  rw [this]

/-- Witness for C3 (amended): one full page of 100 records yields
exactly 1 + 1 = 2 page requests. -/
theorem C3_amended_pagination_witness :
    (fetchOpenIssues [List.replicate 100 dummyIssue]).2 = 1 + 1 :=
  (C3_amended_pagination [List.replicate 100 dummyIssue]).2 (by decide)

/-- C4: the fetcher returns exactly the raw records of the requested
pages, in tracker order, with the records whose canonical URL matches
the pull-request shape removed; consequently the returned count equals
the raw record count across the requested pages minus the number of
pull-request-shaped records. -/
theorem C4_filter_count_and_order (pages : List (List Issue)) :
    ((fetchOpenIssues pages).1 =
        ((requestedPages pages).flatten).filter
          (fun iss => !(isPullRequestURL iss.html_url))) ∧
      ((fetchOpenIssues pages).1.length =
        ((requestedPages pages).flatten).length -
          (((requestedPages pages).flatten).filter
            (fun iss => isPullRequestURL iss.html_url)).length) := by
  have h := fetchOpenIssues_eq_requestedPages pages
  constructor
  · rw [h]
  · rw [h]
    exact length_filter_not_eq (fun iss => isPullRequestURL iss.html_url)
      ((requestedPages pages).flatten)

/-- C5: the synthesized body of every creation request is the
provenance line carrying the issue canonical URL, then the separator,
then the original body verbatim; the title is copied verbatim and label
names are extracted in source order.  At the concrete input with URL
`https://x/issues/7` and body `hello` the produced body is the literal
provenance-plus-separator string ending in exactly `hello`. -/
theorem C5_body_synthesis (iss : Issue) :
    ((transformIssue iss).body =
        provenanceLine iss.html_url ++ (bodySeparator ++ iss.body)) ∧
      ((transformIssue iss).title = iss.title) ∧
      ((transformIssue iss).labels = iss.labels.map Label.name) ∧
      ((transformIssue
          { dummyIssue with html_url := "https://x/issues/7", body := "hello" }).body =
        "_Copied from original issue: https://x/issues/7_\n\n---\n\nhello") := by
  refine ⟨?_, rfl, rfl, by decide⟩
  apply String.ext
  simp [transformIssue, buildBody, provenanceLine, bodySeparator,
    String.data_append]

/-- C1: in a non-dry-run pass a creation failure never aborts the batch:
for every fetched issue list and every outcome oracle, the creation
POSTs of the copy loop hit exactly the indices 0, ..., n-1 once each, in
fetch order; and in the concrete 5-issue scenario where the creations
for items 2 and 4 (indices 1 and 3) return a non-201 status, the run
reports succeeded = 3, failed = 2, total = 5. -/
theorem C1_partial_failure_no_abort :
    (∀ (issues : List Issue) (ok : Nat → Bool),
        attemptedIndices (runEvents issues ok false).1 = List.range issues.length) ∧
    ((runEvents (List.replicate 5 dummyIssue)
        (fun i => decide (i ≠ 1 ∧ i ≠ 3)) false).2.1 = 3 ∧
      (runEvents (List.replicate 5 dummyIssue)
        (fun i => decide (i ≠ 1 ∧ i ≠ 3)) false).2.2 = 2 ∧
      (List.replicate 5 dummyIssue).length = 5) := by
  constructor
  · intro issues ok
    rw [runEvents]
    simp only [Bool.false_eq_true, if_false]
    rw [copyFrom_attempts, List.range_eq_range']
  · refine ⟨by decide, by decide, by decide⟩

/-- C2: for every non-dry-run pass, after the copy loop the success
counter plus the failure counter equals the number of fetched issues
(each iteration increments exactly one of the two), which is the total
the summary reports. -/
theorem C2_counters_sum_to_total (issues : List Issue) (ok : Nat → Bool) :
    (runEvents issues ok false).2.1 + (runEvents issues ok false).2.2 =
      issues.length := by
  rw [runEvents]
  simp only [Bool.false_eq_true, if_false]
  exact copyFrom_counts issues.length ok issues 0

/-- C7: with dry-run enabled the run returns right after the preview:
the event trace is empty, so in particular zero creation POSTs reach
the target, whatever the fetched issue set. -/
theorem C7_dry_run_no_creation_calls (issues : List Issue) (ok : Nat → Bool) :
    (runEvents issues ok true).1 = [] ∧
      countCreates (runEvents issues ok true).1 = 0 :=
  ⟨rfl, rfl⟩

/-- C9: the non-dry-run trace is exactly one creation POST per fetched
index, in order, followed by a single sleep exactly when that creation
succeeded and the index is not the last fetched one; hence no delay ever
follows a failed attempt, and none follows the last issue regardless of
outcome. -/
theorem C9_delay_only_after_successful_non_last (issues : List Issue)
    (ok : Nat → Bool) :
    (runEvents issues ok false).1 =
      (List.range issues.length).flatMap
        (fun j => Event.createReq j ::
          (if ok j && decide (j < issues.length - 1) then [Event.sleep]
           else [])) := by
  rw [runEvents]
  simp only [Bool.false_eq_true, if_false]
  rw [copyFrom_trace, List.range_eq_range']

theorem length_filter_range_lt (n k : Nat) (h : k ≤ n) :
    ((List.range n).filter (fun j => decide (j < k))).length = k := by
  induction n with
  | zero =>
      have hk : k = 0 := Nat.le_zero.mp h
      subst hk; rfl
  | succ n ih =>
      rcases Nat.lt_or_ge n k with h1 | h1
      · have hk : k = n + 1 := by omega
        subst hk
        rw [List.filter_eq_self.mpr]
        · exact List.length_range _
        · intro a ha
          simp only [List.mem_range] at ha
          simp [ha]
      · rw [List.range_succ, List.filter_append]
        have h2 : ¬ (n < k) := by omega
        simp [List.filter_cons, h2, ih h1]

/-- C6 is refuted as stated: with two fetched issues where the first
creation succeeds and the second fails, there is exactly 1 successful
creation but the loop executes 1 delay, not 1 - 1 = 0 (the delay
follows every successful creation at a non-last fetched index, not
every successful creation except the last successful one). -/
theorem C6_counterexample :
    countSleeps (runEvents (List.replicate 2 dummyIssue)
        (fun i => decide (i = 0)) false).1 = 1 ∧
      (runEvents (List.replicate 2 dummyIssue)
        (fun i => decide (i = 0)) false).2.1 = 1 ∧
      (1 : Nat) ≠ 1 - 1 := by
  refine ⟨by decide, by decide, by decide⟩

/-- C6 (amended): the delays of a non-dry-run pass are exactly one per
successful creation at a non-last fetched index; in particular when
every creation succeeds the loop executes exactly N - 1 delays for N
fetched issues, none before the first and none after the last. -/
theorem C6_amended_delay_count (issues : List Issue) (ok : Nat → Bool) :
    (countSleeps (runEvents issues ok false).1 =
        ((List.range issues.length).filter
          (fun j => ok j && decide (j < issues.length - 1))).length) ∧
      ((∀ j, ok j = true) →
        countSleeps (runEvents issues ok false).1 = issues.length - 1) := by
  have hmain : countSleeps (runEvents issues ok false).1 =
      ((List.range issues.length).filter
        (fun j => ok j && decide (j < issues.length - 1))).length := by
    rw [runEvents]
    simp only [Bool.false_eq_true, if_false]
    rw [copyFrom_sleeps, List.range_eq_range']
  refine ⟨hmain, fun hall => ?_⟩
  rw [hmain]
  have hcongr : ((List.range issues.length).filter
      (fun j => ok j && decide (j < issues.length - 1))) =
      ((List.range issues.length).filter
        (fun j => decide (j < issues.length - 1))) := by
    apply List.filter_congr
    intro a _
    simp [hall a]
  rw [hcongr,
    length_filter_range_lt issues.length (issues.length - 1) (Nat.sub_le _ _)]

/-- Witness for C6 (amended): three fetched issues, all creations
succeed, exactly 3 - 1 = 2 delays. -/
theorem C6_amended_delay_count_witness :
    countSleeps (runEvents (List.replicate 3 dummyIssue)
      (fun _ => true) false).1 = 3 - 1 := by
  have h := (C6_amended_delay_count (List.replicate 3 dummyIssue)
    (fun _ => true)).2 (fun _ => rfl)
  simpa using h

/-- C8: the process exit code is 0 exactly when the credential is
present and the fetch phase succeeds — in particular on every run that
completes the copy loop, whatever the per-item outcome oracle says —
and 1 exactly when the credential is missing at startup or the initial
fetch fails. -/
theorem C8_exit_codes (token : String) (fetchResult : Except String (List Issue))
    (ok : Nat → Bool) (dryRun : Bool) :
    ((mainExitCode token fetchResult ok dryRun = 0) ↔
        (¬ token = "" ∧ ∃ issues, fetchResult = Except.ok issues)) ∧
      ((mainExitCode token fetchResult ok dryRun = 1) ↔
        (token = "" ∨ ∃ e, fetchResult = Except.error e)) := by
  by_cases ht : token = "" <;>
    cases fetchResult <;> simp [mainExitCode, runModel, ht]

/-- C10: the serialized creation request always carries the `title` and
`body` fields; it carries a `labels` field exactly when the source
issue has a non-empty label list, and then that field holds exactly the
label names in source order. -/
theorem C10_labels_omitted_when_empty (iss : Issue) :
    ("title" ∈ (marshalCreateIssueRequest (transformIssue iss)).map Prod.fst) ∧
      ("body" ∈ (marshalCreateIssueRequest (transformIssue iss)).map Prod.fst) ∧
      (("labels" ∈ (marshalCreateIssueRequest (transformIssue iss)).map Prod.fst) ↔
        iss.labels ≠ []) ∧
      (iss.labels ≠ [] →
        List.lookup "labels" (marshalCreateIssueRequest (transformIssue iss)) =
          some (JsonValue.arr ((iss.labels.map Label.name).map JsonValue.str))) := by
  by_cases h : iss.labels = []
  · simp [marshalCreateIssueRequest, transformIssue, h]
  · have hne : (iss.labels.map Label.name).isEmpty = false := by
      simp [List.isEmpty_iff, h]
    simp [marshalCreateIssueRequest, transformIssue, h, hne, List.lookup]

/-- Witness for C10: an issue with the single label `bug` yields a
serialized `labels` field holding exactly `[str bug]`. -/
theorem C10_labels_omitted_when_empty_witness :
    ({ dummyIssue with labels := [dummyLabel] } : Issue).labels ≠ [] ∧
      List.lookup "labels"
          (marshalCreateIssueRequest
            (transformIssue { dummyIssue with labels := [dummyLabel] })) =
        some (JsonValue.arr (([dummyLabel].map Label.name).map JsonValue.str)) := by
  refine ⟨by decide, ?_⟩
  exact (C10_labels_omitted_when_empty
    { dummyIssue with labels := [dummyLabel] }).2.2.2 (by decide)

end CopyIssues
